import Mathlib

/-!
Shallow embedding of `astrobase/hatsurveys/oldhatlc.py` (module version 0.3.17).

The module has one entry point, `read_hatlc`, which infers compression and
payload format from the file's basename and, for delimited-text files,
parses a `#`-commented metadata header followed by data rows into a dict.

Machine reals are modelled as exact rationals (`ℚ`): Python's `float()`
builtin is embedded as an exact decimal/scientific parser `pyFloat`, which
is faithful at the level of the comparisons made here (both sides of every
comparison go through the same conversion).  File I/O and decompression are
out of scope: the reader takes the file name (for sniffing) and the already
decompressed text content.  The FITS branch body uses the external `pyfits`
library and is represented by the opaque-free outcome constructor
`ReadOutcome.fitsBranch`; no claim depends on its internals.
-/

set_option autoImplicit false

namespace OldHatLC

universe u v

/-- Python exception kinds that the text branch of `read_hatlc` can raise. -/
inductive PyError where
  | valueError
  | indexError
  | keyError (k : String)
  deriving DecidableEq, Repr

/-- `'needle' in hay` — Python substring containment test. -/
def pyIn (needle hay : String) : Bool :=
  decide (needle.toList <:+: hay.toList)

/-- Python `s.startswith(pre)`. -/
def pyStartsWith (s pre : String) : Bool :=
  pre.toList.isPrefixOf s.toList

/-- Left-to-right scan underlying Python `s.split(sep)` for a nonempty
separator: at each position not inside a previous separator match, a match
of `sep` ends the current field and skips the separator's characters. -/
def splitWalk (sep : List Char) : List Char → Nat → List Char → List (List Char)
  | [], _, acc => [acc.reverse]
  | c :: cs, skip, acc =>
    match skip with
    | n + 1 => splitWalk sep cs n acc
    | 0 =>
      if sep.isPrefixOf (c :: cs) then
        acc.reverse :: splitWalk sep cs (sep.length - 1) []
      else
        splitWalk sep cs 0 (c :: acc)

/-- Python `s.split(sep)` for a nonempty separator string: fields between
non-overlapping left-to-right occurrences of `sep`, keeping empty
fields. -/
def pySplit (sep : String) (s : String) : List String :=
  (splitWalk sep.toList s.toList 0 []).map String.mk

/-- Split a character list at every character satisfying `p`, keeping
empty fields. -/
def splitPredWalk (p : Char → Bool) : List Char → List Char → List (List Char)
  | [], acc => [acc.reverse]
  | c :: cs, acc =>
    if p c then acc.reverse :: splitPredWalk p cs []
    else splitPredWalk p cs (c :: acc)

/-- `os.path.basename` for POSIX paths (everything after the last `/`). -/
def basename (p : String) : String :=
  (pySplit "/" p).getLastD ""

/-- Strip the characters of `chars` from both ends of a list, as Python's
`str.strip(chars)` does on the underlying character sequence. -/
def stripEnds (pred : Char → Bool) (cs : List Char) : List Char :=
  ((cs.dropWhile pred).reverse.dropWhile pred).reverse

/-- Python `s.strip(chars)`: removes any characters drawn from the set
`chars` from both the beginning and the end of `s`. -/
def pyStrip (chars : List Char) (s : String) : String :=
  String.mk (stripEnds (fun c => chars.contains c) s.toList)

/-- Python `s.strip()` (whitespace strip). -/
def pyStripWS (s : String) : String :=
  String.mk (stripEnds Char.isWhitespace s.toList)

/-- Python `s.split()` with no argument: split on runs of whitespace,
discarding empty fields. -/
def pySplitWS (s : String) : List String :=
  ((splitPredWalk Char.isWhitespace s.toList []).map String.mk).filter (fun t => !(t == ""))

/-- Python slice `xs[a:b]` for nonnegative bounds. -/
def pySlice {α : Type u} (a b : Nat) (xs : List α) : List α :=
  (xs.take b).drop a

/-- Python `xs[-1]` on the nonempty result of `str.split`. -/
def lastD (xs : List String) : String :=
  xs.getLastD ""

/-- Numeric value of a list of decimal digit characters. -/
def digitsVal (cs : List Char) : Nat :=
  cs.foldl (fun a c => a * 10 + (c.toNat - 48)) 0

/-- Parse an optional leading sign; returns (isNegative, rest). -/
def parseSign (cs : List Char) : Bool × List Char :=
  match cs with
  | '-' :: r => (true, r)
  | '+' :: r => (false, r)
  | _ => (false, cs)

/-- Parse the part after `e`/`E` in a float literal: optional sign and a
nonempty digit run ending the string. -/
def parseExpTail (r : List Char) : Option Int :=
  let sr := parseSign r
  let ed := sr.2.takeWhile Char.isDigit
  let rest := sr.2.dropWhile Char.isDigit
  if ed.isEmpty ∨ ¬ rest.isEmpty then none
  else some (if sr.1 then -(digitsVal ed : Int) else (digitsVal ed : Int))

/-- Python's `float()` builtin on plain decimal / scientific notation
(optional surrounding whitespace, optional sign, digits with an optional
fractional part, optional exponent), returning the exact rational value;
`none` models `ValueError`.  The `inf`/`nan` spellings are outside the
fragment exercised by this module's inputs. -/
def pyFloat (s : String) : Option ℚ :=
  let cs := stripEnds Char.isWhitespace s.toList
  let sc := parseSign cs
  let ip := sc.2.takeWhile Char.isDigit
  let cs2 := sc.2.dropWhile Char.isDigit
  let fpr : List Char × List Char :=
    match cs2 with
    | '.' :: r => (r.takeWhile Char.isDigit, r.dropWhile Char.isDigit)
    | _ => ([], cs2)
  if ip.isEmpty ∧ fpr.1.isEmpty then none
  else
    match (match fpr.2 with
           | [] => some (0 : Int)
           | 'e' :: r => parseExpTail r
           | 'E' :: r => parseExpTail r
           | _ => none) with
    | none => none
    | some ex =>
      let p : Int := ex - (fpr.1.length : Int)
      let n0 : Nat := digitsVal (ip ++ fpr.1)
      let mag : ℚ :=
        if 0 ≤ p then mkRat ((n0 : Int) * (10 : Int) ^ p.toNat) 1
        else mkRat (n0 : Int) ((10 : Nat) ^ (-p).toNat)
      some (if sc.1 then -mag else mag)

/-- Python's `int()` builtin on a decimal string (optional surrounding
whitespace and sign); `none` models `ValueError`. -/
def pyInt (s : String) : Option Int :=
  let cs := stripEnds Char.isWhitespace s.toList
  let sc := parseSign cs
  if sc.2.isEmpty ∨ ¬ sc.2.all Char.isDigit then none
  else some (if sc.1 then -(digitsVal sc.2 : Int) else (digitsVal sc.2 : Int))

/-- The three coercion callables stored in `TEXTLC_OUTPUT_COLUMNS`
(`float`, `int`, `str`). -/
inductive Coerce where
  | toFloat
  | toInt
  | toStr
  deriving DecidableEq, Repr

/-- A coerced cell value (result of applying `float`, `int` or `str`). -/
inductive Value where
  | vFloat (q : ℚ)
  | vInt (n : Int)
  | vStr (s : String)
  deriving DecidableEq, Repr

/-- Apply a coercion callable to a raw string cell; `none` models the
`ValueError` raised by `float`/`int` on a malformed literal. -/
def applyCoerce : Coerce → String → Option Value
  | .toFloat, s => (pyFloat s).map .vFloat
  | .toInt, s => (pyInt s).map .vInt
  | .toStr, s => some (.vStr s)

/-- One entry of `TEXTLC_OUTPUT_COLUMNS`: description, text format,
binary-table type code, coercion callable (source lines 49-178). -/
structure ColumnSpec where
  description : String
  textFormat : String
  binaryTypeCode : String
  coerce : Coerce
  deriving DecidableEq, Repr

/-- The static schema table `TEXTLC_OUTPUT_COLUMNS` (source lines 49-178),
keyed by column code, in source order. -/
def TEXTLC_OUTPUT_COLUMNS : List (String × ColumnSpec) := [
  ("BJD", ⟨"time in Baryocentric Julian Date", "%20.7f", "D", .toFloat⟩),
  ("MJD", ⟨"time in Modified Julian Date", "%20.7f", "D", .toFloat⟩),
  ("HJD", ⟨"time in Heliocentric Julian Date", "%20.7f", "D", .toFloat⟩),
  ("RJD", ⟨"time in Reduced Julian Date", "%20.7f", "D", .toFloat⟩),
  ("FJD", ⟨"time in Full Julian Date", "%20.7f", "D", .toFloat⟩),
  ("XCC", ⟨"x coordinate on CCD", "%.1f", "E", .toFloat⟩),
  ("YCC", ⟨"y coordinate on CCD", "%.1f", "E", .toFloat⟩),
  ("IM1", ⟨"instrumental lightcurve magnitude (aperture 1)", "%12.5f", "D", .toFloat⟩),
  ("IE1", ⟨"instrumental lightcurve measurement error (aperture 1)", "%12.5f", "D", .toFloat⟩),
  ("IQ1", ⟨"instrumental lightcurve quality flag (aperture 1)", "%s", "1A", .toStr⟩),
  ("IM2", ⟨"instrumental lightcurve magnitude (aperture 2)", "%12.5f", "D", .toFloat⟩),
  ("IE2", ⟨"instrumental lightcurve measurement error (aperture 2)", "%12.5f", "D", .toFloat⟩),
  ("IQ2", ⟨"instrumental lightcurve quality flag (aperture 2)", "%s", "1A", .toStr⟩),
  ("IM3", ⟨"instrumental lightcurve magnitude (aperture 3)", "%12.5f", "D", .toFloat⟩),
  ("IE3", ⟨"instrumental lightcurve measurement error (aperture 3)", "%12.5f", "D", .toFloat⟩),
  ("IQ3", ⟨"instrumental lightcurve quality flag (aperture 3)", "%s", "1A", .toStr⟩),
  ("RM1", ⟨"reduced lightcurve magnitude (aperture 1)", "%12.5f", "D", .toFloat⟩),
  ("RM2", ⟨"reduced lightcurve magnitude (aperture 2)", "%12.5f", "D", .toFloat⟩),
  ("RM3", ⟨"reduced lightcurve magnitude (aperture 3)", "%12.5f", "D", .toFloat⟩),
  ("EP1", ⟨"EPD lightcurve magnitude (aperture 1)", "%12.5f", "D", .toFloat⟩),
  ("EP2", ⟨"EPD lightcurve magnitude (aperture 2)", "%12.5f", "D", .toFloat⟩),
  ("EP3", ⟨"EPD lightcurve magnitude (aperture 3)", "%12.5f", "D", .toFloat⟩),
  ("TF1", ⟨"TFA lightcurve magnitude (aperture 1)", "%12.5f", "D", .toFloat⟩),
  ("TF2", ⟨"TFA lightcurve magnitude (aperture 2)", "%12.5f", "D", .toFloat⟩),
  ("TF3", ⟨"TFA lightcurve magnitude (aperture 3)", "%12.5f", "D", .toFloat⟩),
  ("RSTF", ⟨"HAT station and frame number of this LC point", "%s", "10A", .toStr⟩),
  ("RSTFC", ⟨"HAT station, frame number, and CCD of this LC point", "%s", "10A", .toStr⟩),
  ("ESTF", ⟨"HAT station and frame number of this LC point", "%s", "10A", .toStr⟩),
  ("ESTFC", ⟨"HAT station, frame number, and CCD of this LC point", "%s", "10A", .toStr⟩),
  ("TSTF", ⟨"HAT station and frame number of this LC point", "%s", "10A", .toStr⟩),
  ("TSTFC", ⟨"HAT station, frame number, and CCD of this LC point", "%s", "10A", .toStr⟩),
  ("FSV", ⟨"PSF fit S value", "%12.5f", "E", .toFloat⟩),
  ("FDV", ⟨"PSF fit D value", "%12.5f", "E", .toFloat⟩),
  ("FKV", ⟨"PSF fit K value", "%12.5f", "E", .toFloat⟩),
  ("FLT", ⟨"filter used for this LC point", "%s", "1A", .toStr⟩),
  ("FLD", ⟨"observed HAT field", "%s", "15A", .toStr⟩),
  ("CCD", ⟨"CCD taking this LC point ", "%s", "I", .toInt⟩),
  ("CFN", ⟨"CCD frame number", "%s", "I", .toInt⟩),
  ("STF", ⟨"HAT station taking this LC point", "%s", "I", .toInt⟩),
  ("BGV", ⟨"Background value", "%12.5f", "E", .toFloat⟩),
  ("BGE", ⟨"Background error", "%12.5f", "E", .toFloat⟩),
  ("IHA", ⟨"Hour angle of object [hr]", "%12.5f", "E", .toFloat⟩),
  ("IZD", ⟨"Zenith distance of object [deg]", "%12.5f", "E", .toFloat⟩),
  ("NET", ⟨"HAT network responsible for this LC point", "%s", "2A", .toStr⟩),
  ("EXP", ⟨"exposure time for this LC point [seconds]", "%12.3f", "E", .toFloat⟩),
  ("CAM", ⟨"camera taking the exposure for this LC point", "%s", "2A", .toStr⟩),
  ("TEL", ⟨"telescope taking the exposure for this LC point", "%s", "2A", .toStr⟩),
  ("XIC", ⟨"image-subtraction X coordinate on CCD", "%.1f", "E", .toFloat⟩),
  ("YIC", ⟨"image-subtraction Y coordinate on CCD", "%.1f", "E", .toFloat⟩),
  ("IRM1", ⟨"image-subtraction lightcurve reduced magnitude (aperture 1)", "%12.5f", "D", .toFloat⟩),
  ("IRE1", ⟨"image-subtraction lightcurve measurement error (aperture 1)", "%12.5f", "D", .toFloat⟩),
  ("IRQ1", ⟨"image-subtraction lightcurve quality flag (aperture 1)", "%s", "1A", .toStr⟩),
  ("IRM2", ⟨"image-subtraction lightcurve reduced magnitude (aperture 2)", "%12.5f", "D", .toFloat⟩),
  ("IRE2", ⟨"image-subtraction lightcurve measurement error (aperture 2)", "%12.5f", "D", .toFloat⟩),
  ("IRQ2", ⟨"image-subtraction lightcurve quality flag (aperture 2)", "%s", "1A", .toStr⟩),
  ("IRM3", ⟨"image-subtraction lightcurve reduced magnitude (aperture 3)", "%12.5f", "D", .toFloat⟩),
  ("IRE3", ⟨"image-subtraction lightcurve measurement error (aperture 3)", "%12.5f", "D", .toFloat⟩),
  ("IRQ3", ⟨"image-subtraction lightcurve quality flag (aperture 3)", "%s", "1A", .toStr⟩),
  ("IEP1", ⟨"image-subtraction EPD lightcurve magnitude (aperture 1)", "%12.5f", "D", .toFloat⟩),
  ("IEP2", ⟨"image-subtraction EPD lightcurve magnitude (aperture 2)", "%12.5f", "D", .toFloat⟩),
  ("IEP3", ⟨"image-subtraction EPD lightcurve magnitude (aperture 3)", "%12.5f", "D", .toFloat⟩),
  ("ITF1", ⟨"image-subtraction TFA lightcurve magnitude (aperture 1)", "%12.5f", "D", .toFloat⟩),
  ("ITF2", ⟨"image-subtraction TFA lightcurve magnitude (aperture 2)", "%12.5f", "D", .toFloat⟩),
  ("ITF3", ⟨"image-subtraction TFA lightcurve magnitude (aperture 3)", "%12.5f", "D", .toFloat⟩)]

/-- Equality of fallible results is decidable. -/
instance {ε : Type u} {α : Type v} [DecidableEq ε] [DecidableEq α] :
    DecidableEq (Except ε α) := fun x y =>
  match x, y with
  | .ok a, .ok b =>
    if h : a = b then isTrue (h ▸ rfl) else isFalse (fun hc => h (Except.ok.inj hc))
  | .error e, .error f =>
    if h : e = f then isTrue (h ▸ rfl) else isFalse (fun hc => h (Except.error.inj hc))
  | .ok _, .error _ => isFalse (fun hc => Except.noConfusion hc)
  | .error _, .ok _ => isFalse (fun hc => Except.noConfusion hc)

/-- Sequencing of fallible Python statements: an exception in `x`
propagates, otherwise execution continues with the value. -/
def bindE {α : Type u} {β : Type v} (x : Except PyError α) (f : α → Except PyError β) :
    Except PyError β :=
  match x with
  | .error e => .error e
  | .ok a => f a

/-- Left-to-right fallible map (a Python loop or comprehension whose body
may raise): stops at the first exception. -/
def mapE {α : Type u} {β : Type v} (f : α → Except PyError β) :
    List α → Except PyError (List β)
  | [] => .ok []
  | a :: as =>
    match f a with
    | .error e => .error e
    | .ok b =>
      match mapE f as with
      | .error e => .error e
      | .ok bs => .ok (b :: bs)

/-- Python `xs[i]`: `IndexError` when out of range. -/
def getAt {α : Type u} (xs : List α) (i : Nat) : Except PyError α :=
  match xs.get? i with
  | some a => .ok a
  | none => .error .indexError

/-- Python tuple unpacking `a, b = xs` (raises `ValueError` unless `xs`
has exactly two elements). -/
def unpack2 (xs : List String) : Except PyError (String × String) :=
  match xs with
  | [a, b] => .ok (a, b)
  | _ => .error .valueError

/-- Python tuple unpacking `a, b, c = xs`. -/
def unpack3 (xs : List String) : Except PyError (String × String × String) :=
  match xs with
  | [a, b, c] => .ok (a, b, c)
  | _ => .error .valueError

/-- Python tuple unpacking of exactly six elements. -/
def unpack6 (xs : List String) :
    Except PyError (String × String × String × String × String × String) :=
  match xs with
  | [a, b, c, d, e, f] => .ok (a, b, c, d, e, f)
  | _ => .error .valueError

/-- `float(s)` as a statement: `ValueError` on a malformed literal. -/
def floatE (s : String) : Except PyError ℚ :=
  match pyFloat s with
  | some q => .ok q
  | none => .error .valueError

/-- `int(s)` as a statement: `ValueError` on a malformed literal. -/
def intE (s : String) : Except PyError Int :=
  match pyInt s with
  | some n => .ok n
  | none => .error .valueError

/-- Python `xs.index(t)`: first index of `t`, `ValueError` when absent. -/
def pyIndex (xs : List String) (t : String) : Except PyError Nat :=
  match xs.findIdx? (fun x => x == t) with
  | some i => .ok i
  | none => .error .valueError

/-- `list(zip(*rows))`: transpose truncated to the shortest row; empty
input yields the empty list. -/
def transposeMin {α : Type u} [Inhabited α] (rows : List (List α)) : List (List α) :=
  match rows with
  | [] => []
  | r :: rs =>
    let n := rs.foldl (fun m row => min m row.length) r.length
    (List.range n).map (fun i => (r :: rs).map (fun row => row.getD i default))

/-- The retained data lines (source lines 244-245): lines not starting
with `#` and longer than one character. -/
def dataLines (lcflines : List String) : List String :=
  (lcflines.filter (fun x => !(pyStartsWith x "#"))).filter (fun x => x.length > 1)

/-- Data-row preparation of the text branch (source lines 243-253): keep
non-comment lines longer than one character, split each by the delimiter
(`,` for `.csv`, whitespace runs otherwise), transpose. -/
def prepData (isCSV : Bool) (lcflines : List String) : List (List String) :=
  transposeMin (if isCSV then (dataLines lcflines).map (fun x => pySplit "," x)
                else (dataLines lcflines).map pySplitWS)

/-- Metadata-line preparation of the text branch (source lines 243 and
256-258): keep comment lines, strip `#` then whitespace from both ends,
drop the lines that became empty. -/
def prepMeta (lcflines : List String) : List String :=
  let od := lcflines.filter (fun x => pyStartsWith x "#")
  let od2 := od.map (fun x => pyStrip ['#'] x)
  let od3 := od2.map pyStripWS
  od3.filter (fun x => x.length > 0)

/-- The values extracted from the metadata block by source lines 260-287,
before the final assembly transformations of lines 299-308. -/
structure TextMeta where
  hatid : String
  twomassid : String
  ra : ℚ
  dec : ℚ
  mags : List ℚ
  ndet : Int
  hatstations : String
  filters : List String
  columns : List String
  deriving DecidableEq, Repr

/-- One step of the column-legend loop (source lines 284-287): split a
definition line on `" - "` into exactly three parts, keep the middle. -/
def extract_colname (line : String) : Except PyError String :=
  bindE (unpack3 (pySplit " - " line)) (fun t => .ok t.2.1)

/-- Metadata parsing of the text branch, source lines 260-287, statement by
statement in source order. -/
def parse_metadata (od : List String) : Except PyError TextMeta :=
  bindE (getAt od 0) (fun l0 =>
  bindE (unpack2 (pySplit " - " l0)) (fun p0 =>
  bindE (getAt od 1) (fun l1 =>
  bindE (unpack2 (pySplit ", " l1)) (fun p1 =>
  bindE (floatE (pyStrip [' ', 'd', 'e', 'g'] (lastD (pySplit " = " p1.1)))) (fun ra =>
  bindE (floatE (pyStrip [' ', 'd', 'e', 'g'] (lastD (pySplit " = " p1.2)))) (fun dec =>
  bindE (getAt od 2) (fun l2 =>
  bindE (unpack6 (pySplit ", " l2)) (fun p2 =>
  bindE (floatE (lastD (pySplit " = " p2.1))) (fun vmag =>
  bindE (floatE (lastD (pySplit " = " p2.2.1))) (fun rmag =>
  bindE (floatE (lastD (pySplit " = " p2.2.2.1))) (fun imag =>
  bindE (floatE (lastD (pySplit " = " p2.2.2.2.1))) (fun jmag =>
  bindE (floatE (lastD (pySplit " = " p2.2.2.2.2.1))) (fun hmag =>
  bindE (floatE (lastD (pySplit " = " p2.2.2.2.2.2))) (fun kmag =>
  bindE (getAt od 3) (fun l3 =>
  bindE (intE (lastD (pySplit ": " l3))) (fun ndet =>
  bindE (getAt od 4) (fun l4 =>
  bindE (pyIndex od "Filters used:") (fun fh =>
  bindE (pyIndex od "Columns:") (fun ch =>
  bindE (mapE extract_colname (od.drop (ch + 1))) (fun columns =>
  .ok { hatid := p0.1, twomassid := p0.2, ra := ra, dec := dec,
        mags := [vmag, rmag, imag, jmag, hmag, kmag], ndet := ndet,
        hatstations := lastD (pySplit ": " l4),
        filters := pySlice fh ch od, columns := columns }))))))))))))))))))))

/-- Apply one coercion callable to one cell, `ValueError` on failure. -/
def coerceOne (k : Coerce) (x : String) : Except PyError Value :=
  match applyCoerce k x with
  | some v => .ok v
  | none => .error .valueError

/-- The comprehension body of source line 296:
`TEXTLC_OUTPUT_COLUMNS[col][3](x)` for each cell `x` of one transposed
column — the schema lookup happens per cell, `KeyError` on a missing
code. -/
def coerceColumn (col : String) (raw : List String) : Except PyError (List Value) :=
  mapE (fun x =>
    match TEXTLC_OUTPUT_COLUMNS.lookup col with
    | none => .error (.keyError col)
    | some spec => coerceOne spec.coerce x) raw

/-- The `for ind, col in enumerate(columns)` loop of source lines 292-297:
index the transposed data (`IndexError` when the legend is wider than the
data), then coerce every cell of that column. -/
def buildCols (tlc : List (List String)) : Nat → List String →
    Except PyError (List (String × List Value))
  | _, [] => .ok []
  | i, col :: rest =>
    bindE (getAt tlc i) (fun raw =>
    bindE (coerceColumn col raw) (fun vals =>
    bindE (buildCols tlc (i + 1) rest) (fun acc =>
    .ok ((col, vals) :: acc))))

/-- Source lines 292-297 as a function of the legend and the transposed
data. -/
def build_columns (cols : List String) (tlc : List (List String)) :
    Except PyError (List (String × List Value)) :=
  buildCols tlc 0 cols

/-- The dict returned by the text branch (source lines 289-308): the
per-column coerced data in legend order plus the metadata fields. -/
structure LCDict where
  colData : List (String × List Value)
  hatid : String
  twomassid : String
  ra : ℚ
  dec : ℚ
  mags : List ℚ
  ndet : Int
  hatstations : List String
  filters : List String
  cols : List String
  deriving DecidableEq, Repr

/-- The whole text branch of `read_hatlc` (source lines 239-310) on the
list of decoded lines: prepare data rows and metadata lines, parse the
metadata, build the coerced columns, assemble the dict (lines 299-308:
strip the `'2MASS J'` character set from the cross-match id, split the
station string on `", "`, drop the first entry of the filter slice). -/
def read_textlines (isCSV : Bool) (lcflines : List String) : Except PyError LCDict :=
  bindE (parse_metadata (prepMeta lcflines)) (fun m =>
  bindE (build_columns m.columns (prepData isCSV lcflines)) (fun cd =>
  .ok { colData := cd, hatid := m.hatid,
        twomassid := pyStrip ['2', 'M', 'A', 'S', ' ', 'J'] m.twomassid,
        ra := m.ra, dec := m.dec, mags := m.mags, ndet := m.ndet,
        hatstations := pySplit ", " m.hatstations,
        filters := m.filters.drop 1, cols := m.columns }))

/-- The text branch on raw decoded content: split on newlines first
(source line 239). -/
def read_text (isCSV : Bool) (content : String) : Except PyError LCDict :=
  read_textlines isCSV (pySplit "\n" content)

/-- Compression inferred from the basename (source lines 198-203):
`.gz` substring checked before `.bz2`, default raw. -/
inductive Compression where
  | gz
  | bz2
  | nocomp
  deriving DecidableEq, Repr

/-- Source lines 198-203. -/
def inferCompression (lcfname : String) : Compression :=
  if pyIn ".gz" lcfname then .gz
  else if pyIn ".bz2" lcfname then .bz2
  else .nocomp

/-- The message printed at source line 234 when a FITS file is requested
without a FITS-capable library. -/
def cantReadMsg (lcfname : String) : String :=
  "can't read " ++ lcfname ++ " since we don't have the pyfits module"

/-- Observable outcome of a `read_hatlc` call: the FITS decode path (its
internals live in the external `pyfits` library), a printed message
followed by a bare `return`, a returned dict, the silent implicit `None`
of a filename matching no branch, or a raised exception. -/
inductive ReadOutcome where
  | fitsBranch
  | printedNone (msg : String)
  | record (d : LCDict)
  | noneSilent
  | err (e : PyError)
  deriving DecidableEq, Repr

/-- Glue between the fallible text decoder and an outcome. -/
def exceptToOutcome : Except PyError LCDict → ReadOutcome
  | .ok d => .record d
  | .error e => .err e

/-- `read_hatlc` (source lines 187-310) with I/O abstracted: `havepyfits`
is the module-level `HAVEPYFITS` flag, `hatlc` the path argument, and
`content` the decoded text the opened (and, per `inferCompression`,
decompressed) stream yields.  Branch structure of lines 205, 232 and 237:
`.fits` is tested before `.csv`/`.hatlc`, and an unmatched filename falls
off the end of the `if`/`elif` chain, returning `None`. -/
def read_hatlc (havepyfits : Bool) (hatlc : String) (content : String) : ReadOutcome :=
  let lcfname := basename hatlc
  if pyIn ".fits" lcfname && havepyfits then .fitsBranch
  else if pyIn ".fits" lcfname && !havepyfits then .printedNone (cantReadMsg lcfname)
  else if pyIn ".csv" lcfname || pyIn ".hatlc" lcfname then
    exceptToOutcome (read_text (pyIn ".csv" lcfname) content)
  else .noneSilent

/-- Projection: the dict of a successful text-branch call. -/
def outRec : ReadOutcome → Option LCDict
  | .record d => some d
  | _ => none

/-- Projection: the filter list of a returned dict. -/
def outFilters (o : ReadOutcome) : Option (List String) :=
  (outRec o).map LCDict.filters

/-- Projection: the detection count of a returned dict. -/
def outNdet (o : ReadOutcome) : Option Int :=
  (outRec o).map LCDict.ndet

/-- Projection: the column-code list of a returned dict. -/
def outCols (o : ReadOutcome) : Option (List String) :=
  (outRec o).map LCDict.cols

/-- Projection: the cross-match identifier of a returned dict. -/
def outTwomass (o : ReadOutcome) : Option String :=
  (outRec o).map LCDict.twomassid

/-- Projection: the coerced values of one named column. -/
def outColumn (c : String) (o : ReadOutcome) : Option (List Value) :=
  (outRec o).bind (fun d => d.colData.lookup c)

/-- Projection: the length of one named column. -/
def outColumnLen (c : String) (o : ReadOutcome) : Option Nat :=
  (outColumn c o).map List.length

/-- Join lines with newlines (inverse of splitting file content on `\n`
when no line contains a newline). -/
def joinLines : List String → String
  | [] => ""
  | [x] => x
  | x :: xs => x ++ "\n" ++ joinLines xs

/-- The decoded lines of the specification's concrete `.hatlc` scenario. -/
def c1lines : List String :=
  ["# HAT-123-4567 - 2MASS J01020304+0506070",
   "# RA = 10.123 deg, Dec = 20.456 deg",
   "# Vmag = 11.0, Rmag = 10.5, Imag = 10.2, Jmag = 9.8, Hmag = 9.5, Kmag = 9.3",
   "# NDET: 2",
   "# HS: G1,G2",
   "# Filters used:",
   "# (header)",
   "# r",
   "# Columns:",
   "# 1 - BJD - time",
   "# 2 - IM1 - mag",
   "2456000.5 12.345",
   "2456000.6 12.355",
   ""]

/-- The concrete scenario's file content. -/
def c1content : String := joinLines c1lines

/-- The dict the embedded reader returns on the concrete scenario. -/
def c1dict : LCDict :=
  { colData := [("BJD", [.vFloat (mkRat 24560005 10), .vFloat (mkRat 24560006 10)]),
                ("IM1", [.vFloat (mkRat 12345 1000), .vFloat (mkRat 12355 1000)])],
    hatid := "HAT-123-4567",
    twomassid := "01020304+0506070",
    ra := mkRat 10123 1000,
    dec := mkRat 20456 1000,
    mags := [mkRat 11 1, mkRat 105 10, mkRat 102 10, mkRat 98 10, mkRat 95 10, mkRat 93 10],
    ndet := 2,
    hatstations := ["G1,G2"],
    filters := ["(header)", "r"],
    cols := ["BJD", "IM1"] }

/-- The concrete scenario with the detection-count metadata line changed
to claim three detections while only two data rows are present. -/
def c3content : String :=
  joinLines (c1lines.take 3 ++ ["# NDET: 3"] ++ c1lines.drop 4)

/-- The concrete scenario with ragged data rows: the first data row has
three whitespace-separated fields, the second only two. -/
def c4content : String :=
  joinLines (c1lines.take 11 ++ ["2456000.5 12.345 99.9", "2456000.6 12.355", ""])

/-- The concrete scenario with the second legend entry replaced by the
column code `ZZZ`, which has no entry in `TEXTLC_OUTPUT_COLUMNS`. -/
def c5lines : List String :=
  c1lines.take 10 ++ ["# 2 - ZZZ - weird"] ++ c1lines.drop 11

/-- The metadata record parsed from `c5lines`. -/
def c5meta : TextMeta :=
  { hatid := "HAT-123-4567",
    twomassid := "2MASS J01020304+0506070",
    ra := mkRat 10123 1000,
    dec := mkRat 20456 1000,
    mags := [mkRat 11 1, mkRat 105 10, mkRat 102 10, mkRat 98 10, mkRat 95 10, mkRat 93 10],
    ndet := 2,
    hatstations := "G1,G2",
    filters := ["Filters used:", "(header)", "r"],
    columns := ["BJD", "ZZZ"] }

/-- The concrete scenario with a cross-match identifier whose last
character (`2`) belongs to the stripped character set of
`strip('2MASS J')`. -/
def c6content : String :=
  joinLines (["# HAT-123-4567 - 2MASS J01020304+0506072"] ++ c1lines.drop 1)

/-- Inverting one sequencing step: a successful `bindE` means the first
statement succeeded and the continuation succeeded on its value. -/
theorem bindE_ok {α : Type u} {β : Type v} {x : Except PyError α}
    {f : α → Except PyError β} {b : β} (h : bindE x f = .ok b) :
    ∃ a, x = .ok a ∧ f a = .ok b := by
  cases x with
  | error e => exact absurd h (by simp [bindE])
  | ok a => exact ⟨a, rfl, h⟩

/-- A successful `mapE` preserves length. -/
theorem mapE_ok_length {α : Type u} {β : Type v} {f : α → Except PyError β} :
    ∀ {l : List α} {l2 : List β}, mapE f l = .ok l2 → l2.length = l.length := by
  intro l
  induction l with
  | nil => intro l2 h; simp [mapE] at h; simp [← h]
  | cons a as ih =>
    intro l2 h
    cases hfa : f a with
    | error e => simp [mapE, hfa] at h
    | ok b =>
      cases hrec : mapE f as with
      | error e => simp [mapE, hfa, hrec] at h
      | ok bs =>
        simp [mapE, hfa, hrec] at h
        simp [← h, ih hrec]

/-- `mapE` only depends on the function's values on the list. -/
theorem mapE_congr {α : Type u} {β : Type v} {f g : α → Except PyError β} :
    ∀ {l : List α}, (∀ a ∈ l, f a = g a) → mapE f l = mapE g l := by
  intro l
  induction l with
  | nil => intro _; rfl
  | cons a as ih =>
    intro hfg
    have ha := hfg a (List.mem_cons_self a as)
    have has : ∀ x ∈ as, f x = g x := fun x hx => hfg x (List.mem_cons_of_mem a hx)
    simp [mapE, ha, ih has]

/-- A successful Python indexing yields a member of the list. -/
theorem getAt_ok_mem {α : Type u} {xs : List α} {i : Nat} {a : α}
    (h : getAt xs i = .ok a) : a ∈ xs := by
  unfold getAt at h
  cases hg : xs.get? i with
  | none => rw [hg] at h; exact absurd h (by simp)
  | some b =>
    rw [hg] at h
    cases h
    exact List.get?_mem hg

/-- Every transposed column of `zip(*rows)` has one entry per row; in
particular a transposed column only exists when there is at least one
row. -/
theorem transposeMin_mem {α : Type u} [Inhabited α] {rows : List (List α)}
    {c : List α} (h : c ∈ transposeMin rows) : c.length = rows.length ∧ rows ≠ [] := by
  cases rows with
  | nil => simp [transposeMin] at h
  | cons r rs =>
    unfold transposeMin at h
    obtain ⟨i, -, rfl⟩ := List.mem_map.mp h
    exact ⟨by simp, by simp⟩

/-- A member of the transposed data block is a nonempty list. -/
theorem prepData_mem_ne_nil {isCSV : Bool} {lcflines : List String}
    {raw : List String} (h : raw ∈ prepData isCSV lcflines) : raw ≠ [] := by
  unfold prepData at h
  obtain ⟨hlen, hne⟩ := transposeMin_mem h
  intro hnil
  subst hnil
  cases hb : isCSV <;> rw [hb] at hlen hne <;> simp_all <;>
    exact hne (List.length_eq_zero.mp hlen.symm)

/-- A member of the transposed data block has one entry per retained data
line. -/
theorem prepData_mem_length {isCSV : Bool} {lcflines : List String}
    {raw : List String} (h : raw ∈ prepData isCSV lcflines) :
    raw.length = (dataLines lcflines).length := by
  unfold prepData at h
  obtain ⟨hlen, -⟩ := transposeMin_mem h
  cases hb : isCSV <;> rw [hb] at hlen <;> simpa using hlen

/-- A successful coercion of a nonempty raw column forces the column code
to have a schema-table entry. -/
theorem coerceColumn_ok_lookup {col : String} {raw : List String}
    {vals : List Value} (h : coerceColumn col raw = .ok vals) (hne : raw ≠ []) :
    ∃ spec, TEXTLC_OUTPUT_COLUMNS.lookup col = some spec := by
  cases raw with
  | nil => exact absurd rfl hne
  | cons x xs =>
    cases hl : TEXTLC_OUTPUT_COLUMNS.lookup col with
    | some spec => exact ⟨spec, rfl⟩
    | none => simp [coerceColumn, mapE, hl] at h

/-- When the code is known, the per-cell schema lookup of `coerceColumn`
is the registered coercion applied cellwise. -/
theorem coerceColumn_eq_mapE {col : String} {spec : ColumnSpec}
    (h : TEXTLC_OUTPUT_COLUMNS.lookup col = some spec) (raw : List String) :
    coerceColumn col raw = mapE (coerceOne spec.coerce) raw := by
  unfold coerceColumn
  exact mapE_congr (fun a _ => by rw [h])

/-- Inverting a successful column-building loop: every produced entry
comes from indexing the transposed data and coercing that raw column. -/
theorem buildCols_ok_mem {tlc : List (List String)} :
    ∀ {i : Nat} {cols : List String} {cd : List (String × List Value)},
      buildCols tlc i cols = .ok cd →
      ∀ p ∈ cd, ∃ j raw, getAt tlc j = .ok raw ∧ coerceColumn p.1 raw = .ok p.2 := by
  intro i cols
  induction cols generalizing i with
  | nil =>
    intro cd h p hp
    unfold buildCols at h
    cases h
    exact absurd hp (List.not_mem_nil p)
  | cons col rest ih =>
    intro cd h p hp
    unfold buildCols at h
    obtain ⟨raw, hraw, h⟩ := bindE_ok h
    obtain ⟨vals, hvals, h⟩ := bindE_ok h
    obtain ⟨acc, hacc, h⟩ := bindE_ok h
    cases h
    rcases List.mem_cons.mp hp with heq | hmem
    · subst heq; exact ⟨i, raw, hraw, hvals⟩
    · exact ih hacc p hmem

/-- Inverting a successful column-building loop, keyed by the legend:
every legend code was indexed and coerced successfully. -/
theorem buildCols_ok_forall {tlc : List (List String)} :
    ∀ {i : Nat} {cols : List String} {cd : List (String × List Value)},
      buildCols tlc i cols = .ok cd →
      ∀ c ∈ cols, ∃ j raw vals, getAt tlc j = .ok raw ∧ coerceColumn c raw = .ok vals := by
  intro i cols
  induction cols generalizing i with
  | nil => intro cd _ c hc; exact absurd hc (List.not_mem_nil c)
  | cons col rest ih =>
    intro cd h c hc
    unfold buildCols at h
    obtain ⟨raw, hraw, h⟩ := bindE_ok h
    obtain ⟨vals, hvals, h⟩ := bindE_ok h
    obtain ⟨acc, hacc, -⟩ := bindE_ok h
    rcases List.mem_cons.mp hc with hceq | hmem
    · subst hceq; exact ⟨i, raw, vals, hraw, hvals⟩
    · exact ih hacc c hmem

/-- Inverting a successful text-branch read: the metadata parse and the
column build both succeeded, and the dict is their assembly (source lines
299-308). -/
theorem read_textlines_ok {isCSV : Bool} {lcflines : List String} {d : LCDict}
    (h : read_textlines isCSV lcflines = .ok d) :
    ∃ m cd, parse_metadata (prepMeta lcflines) = .ok m ∧
      build_columns m.columns (prepData isCSV lcflines) = .ok cd ∧
      d = { colData := cd, hatid := m.hatid,
            twomassid := pyStrip ['2', 'M', 'A', 'S', ' ', 'J'] m.twomassid,
            ra := m.ra, dec := m.dec, mags := m.mags, ndet := m.ndet,
            hatstations := pySplit ", " m.hatstations,
            filters := m.filters.drop 1, cols := m.columns } := by
  unfold read_textlines at h
  obtain ⟨m, hm, h⟩ := bindE_ok h
  obtain ⟨cd, hcd, h⟩ := bindE_ok h
  cases h
  exact ⟨m, cd, hm, hcd, rfl⟩

/-- Inverting a successful metadata parse: the facts about line 0 and
about the filter/column markers that the claims need. -/
theorem parse_metadata_ok {od : List String} {m : TextMeta}
    (h : parse_metadata od = .ok m) :
    (∃ l0 p0, getAt od 0 = .ok l0 ∧ unpack2 (pySplit " - " l0) = .ok p0 ∧
       m.hatid = p0.1 ∧ m.twomassid = p0.2) ∧
    (∃ fh ch, pyIndex od "Filters used:" = .ok fh ∧ pyIndex od "Columns:" = .ok ch ∧
       m.filters = pySlice fh ch od ∧
       mapE extract_colname (od.drop (ch + 1)) = .ok m.columns) := by
  unfold parse_metadata at h
  obtain ⟨l0, h0, h⟩ := bindE_ok h
  obtain ⟨p0, hp0, h⟩ := bindE_ok h
  obtain ⟨l1, h1, h⟩ := bindE_ok h
  obtain ⟨p1, hp1, h⟩ := bindE_ok h
  obtain ⟨ra, hra, h⟩ := bindE_ok h
  obtain ⟨dec, hdec, h⟩ := bindE_ok h
  obtain ⟨l2, h2, h⟩ := bindE_ok h
  obtain ⟨p2, hp2, h⟩ := bindE_ok h
  obtain ⟨vmag, hv, h⟩ := bindE_ok h
  obtain ⟨rmag, hrm, h⟩ := bindE_ok h
  obtain ⟨imag, him, h⟩ := bindE_ok h
  obtain ⟨jmag, hj, h⟩ := bindE_ok h
  obtain ⟨hmag, hh, h⟩ := bindE_ok h
  obtain ⟨kmag, hk, h⟩ := bindE_ok h
  obtain ⟨l3, h3, h⟩ := bindE_ok h
  obtain ⟨ndet, hn, h⟩ := bindE_ok h
  obtain ⟨l4, h4, h⟩ := bindE_ok h
  obtain ⟨fh, hfh, h⟩ := bindE_ok h
  obtain ⟨ch, hch, h⟩ := bindE_ok h
  obtain ⟨columns, hcols, h⟩ := bindE_ok h
  cases h
  exact ⟨⟨l0, p0, h0, hp0, rfl, rfl⟩, ⟨fh, ch, hfh, hch, rfl, hcols⟩⟩

/-- An infix of a list is an infix of any extension on the left. -/
theorem infix_append_left {α : Type u} {l l2 : List α} (l1 : List α)
    (h : l <:+: l2) : l <:+: l1 ++ l2 := by
  obtain ⟨s, t, rfl⟩ := h
  exact ⟨l1 ++ s, t, by simp⟩

/-- C1, counterexample: on the specification's concrete `.hatlc` scenario
the reader's filter list is `["(header)", "r"]`, not the `["r"]` the claim
asserts — the sub-header line after the `Filters used:` marker is kept. -/
theorem c1_scenario_filters_counterexample :
    outFilters (read_hatlc true "object.hatlc" c1content) = some ["(header)", "r"] ∧
    (some ["(header)", "r"] : Option (List String)) ≠ some ["r"] := by decide

/-- C1 (amended): on the concrete `.hatlc` scenario the reader returns a
record with detectionCount 2, columns `["BJD", "IM1"]`, BJD values
2456000.5 and 2456000.6, crossMatchId `"01020304+0506070"`, and filter
list `["(header)", "r"]` — only the `Filters used:` marker line itself is
dropped from the filter slice; the sub-header entry is kept. -/
theorem c1_scenario :
    outNdet (read_hatlc true "object.hatlc" c1content) = some 2 ∧
    outCols (read_hatlc true "object.hatlc" c1content) = some ["BJD", "IM1"] ∧
    outColumn "BJD" (read_hatlc true "object.hatlc" c1content) =
      some [Value.vFloat (mkRat 24560005 10), Value.vFloat (mkRat 24560006 10)] ∧
    outFilters (read_hatlc true "object.hatlc" c1content) = some ["(header)", "r"] ∧
    outTwomass (read_hatlc true "object.hatlc" c1content) = some "01020304+0506070" := by
  decide

/-- C2, counterexample: a concrete input on which the metadata block has
both markers, whose strictly-between lines are `["(header)", "r"]`; the
claim predicts `["r"]` (first entry discarded), but the reader returns
both lines. -/
theorem c2_subheader_kept_counterexample :
    outFilters (read_hatlc true "lc2.hatlc" c1content) = some ["(header)", "r"] ∧
    (some ["(header)", "r"] : Option (List String)) ≠ some ["r"] := by decide

/-- C2 (amended): for every text-branch input on which the reader
succeeds and whose stripped metadata block contains a `Filters used:`
line (first index `fh`) and a `Columns:` line (first index `ch`), the
returned filter list is exactly the metadata lines strictly between the
two markers — no further entry is discarded; in particular the first
line after the marker is kept. -/
theorem c2_filters_between_markers {isCSV : Bool} {lcflines : List String}
    {d : LCDict} {fh ch : Nat}
    (hr : read_textlines isCSV lcflines = .ok d)
    (hf : pyIndex (prepMeta lcflines) "Filters used:" = .ok fh)
    (hc : pyIndex (prepMeta lcflines) "Columns:" = .ok ch) :
    d.filters = pySlice (fh + 1) ch (prepMeta lcflines) := by
  obtain ⟨m, cd, hm, hb, rfl⟩ := read_textlines_ok hr
  obtain ⟨-, fh2, ch2, hf2, hc2, hfil, -⟩ := parse_metadata_ok hm
  have hfe : fh2 = fh := by injection hf2.symm.trans hf
  have hce : ch2 = ch := by injection hc2.symm.trans hc
  subst hfe
  subst hce
  show m.filters.drop 1 = _
  rw [hfil]
  unfold pySlice
  rw [List.drop_drop, Nat.add_comm]

/-- C2, witness: the general filter-slice theorem applied to the concrete
scenario, whose markers sit at metadata indices 5 and 8. -/
theorem c2_filters_between_markers_witness :
    c1dict.filters = pySlice (5 + 1) 8 (prepMeta c1lines) :=
  @c2_filters_between_markers false c1lines c1dict 5 8
    (by decide) (by decide) (by decide)

/-- C3, counterexample: changing the `NDET` metadata line of the concrete
scenario to 3 leaves a file that still parses successfully, with
detectionCount 3 but per-column sequences of length 2 — the reader never
checks the two against each other. -/
theorem c3_ndet_mismatch_counterexample :
    outNdet (read_hatlc true "object.hatlc" c3content) = some 3 ∧
    outColumnLen "BJD" (read_hatlc true "object.hatlc" c3content) = some 2 ∧
    outNdet (read_hatlc true "object.hatlc" c3content) ≠
      (outColumnLen "BJD" (read_hatlc true "object.hatlc" c3content)).map
        (fun n => (n : Int)) := by decide

/-- C3 (amended): every per-column sequence of a successfully parsed
text-branch record has length equal to the number of retained data lines;
the detectionCount is parsed independently from metadata line 3 and
coincides with the column lengths only when the file's `NDET` value is
consistent with its data section. -/
theorem c3_column_lengths {isCSV : Bool} {lcflines : List String} {d : LCDict}
    (hr : read_textlines isCSV lcflines = .ok d) :
    ∀ p ∈ d.colData, p.2.length = (dataLines lcflines).length := by
  obtain ⟨m, cd, hm, hb, rfl⟩ := read_textlines_ok hr
  intro p hp
  unfold build_columns at hb
  obtain ⟨j, raw, hget, hco⟩ := buildCols_ok_mem hb p hp
  have hmem : raw ∈ prepData isCSV lcflines := getAt_ok_mem hget
  have h1 : p.2.length = raw.length := by
    unfold coerceColumn at hco
    exact mapE_ok_length hco
  rw [h1, prepData_mem_length hmem]

/-- C3, witness: the column-length theorem applied to the concrete
scenario's BJD column (two retained data lines). -/
theorem c3_column_lengths_witness :
    (("BJD", [Value.vFloat (mkRat 24560005 10), Value.vFloat (mkRat 24560006 10)]) :
        String × List Value).2.length = (dataLines c1lines).length :=
  @c3_column_lengths false c1lines c1dict (by decide) _ (by decide)

/-- C4: at the ragged concrete input — one data row of three
whitespace-separated fields, one of two — the reader raises no error and
returns a record whose columns are truncated to the shortest row, the
extra third field silently dropped by the `zip` transpose. -/
theorem c4_ragged_rows_record :
    (pySplitWS "2456000.5 12.345 99.9").length = 3 ∧
    (pySplitWS "2456000.6 12.355").length = 2 ∧
    outCols (read_hatlc true "object.hatlc" c4content) = some ["BJD", "IM1"] ∧
    outColumn "BJD" (read_hatlc true "object.hatlc" c4content) =
      some [Value.vFloat (mkRat 24560005 10), Value.vFloat (mkRat 24560006 10)] ∧
    outColumn "IM1" (read_hatlc true "object.hatlc" c4content) =
      some [Value.vFloat (mkRat 12345 1000), Value.vFloat (mkRat 12355 1000)] := by
  decide

/-- C5: whenever the metadata parse of a text-branch input succeeds, (a)
if any legend column code has no schema-table entry, the whole read fails
with an exception (the per-cell `KeyError`, or an earlier exception of
the same loop) — a legend column is never silently dropped; and (b) on
success, every returned column was coerced cellwise with exactly the
coercion registered for its code in `TEXTLC_OUTPUT_COLUMNS`. -/
theorem c5_schema_consulted (isCSV : Bool) (lcflines : List String) (m : TextMeta)
    (hm : parse_metadata (prepMeta lcflines) = .ok m) :
    ((∃ c ∈ m.columns, TEXTLC_OUTPUT_COLUMNS.lookup c = none) →
        ∃ e, read_textlines isCSV lcflines = .error e) ∧
    (∀ d, read_textlines isCSV lcflines = .ok d →
        ∀ p ∈ d.colData, ∃ spec raw, TEXTLC_OUTPUT_COLUMNS.lookup p.1 = some spec ∧
          raw ∈ prepData isCSV lcflines ∧ mapE (coerceOne spec.coerce) raw = .ok p.2) := by
  constructor
  · rintro ⟨c, hcmem, hnone⟩
    cases hout : read_textlines isCSV lcflines with
    | error e => exact ⟨e, rfl⟩
    | ok d =>
      exfalso
      obtain ⟨m2, cd, hm2, hb, -⟩ := read_textlines_ok hout
      have hmeq : m2 = m := by injection hm2.symm.trans hm
      subst hmeq
      unfold build_columns at hb
      obtain ⟨j, raw, vals, hget, hco⟩ := buildCols_ok_forall hb c hcmem
      have hne : raw ≠ [] := prepData_mem_ne_nil (getAt_ok_mem hget)
      obtain ⟨spec, hspec⟩ := coerceColumn_ok_lookup hco hne
      rw [hnone] at hspec
      exact Option.noConfusion hspec
  · intro d hout p hp
    obtain ⟨m2, cd, hm2, hb, hd⟩ := read_textlines_ok hout
    subst hd
    unfold build_columns at hb
    obtain ⟨j, raw, hget, hco⟩ := buildCols_ok_mem hb p hp
    have hmem := getAt_ok_mem hget
    have hne := prepData_mem_ne_nil hmem
    obtain ⟨spec, hspec⟩ := coerceColumn_ok_lookup hco hne
    refine ⟨spec, raw, hspec, hmem, ?_⟩
    rw [← coerceColumn_eq_mapE hspec raw]
    exact hco

/-- C5, witness: on the concrete input whose legend contains the unknown
code `ZZZ`, part (a) of the schema theorem yields a failing read. -/
theorem c5_schema_consulted_witness :
    ∃ e, read_textlines false c5lines = .error e :=
  (c5_schema_consulted false c5lines c5meta (by decide)).1
    ⟨"ZZZ", by decide, by decide⟩

/-- C6, counterexample: a cross-match identifier ending in `2` — a
character of the stripped set — loses its final character: the reader
returns `"01020304+050607"` where the claim predicts
`"01020304+0506072"`. -/
theorem c6_trailing_strip_counterexample :
    outTwomass (read_hatlc true "object.hatlc" c6content) = some "01020304+050607" ∧
    (some "01020304+050607" : Option String) ≠ some "01020304+0506072" := by decide

/-- C6 (amended): the returned crossMatchId is the second
`" - "`-separated token of metadata line 0 with all leading and trailing
characters drawn from the set `{'2','M','A','S',' ','J'}` removed —
Python `str.strip('2MASS J')` semantics, which strips both ends, not just
a leading prefix. -/
theorem c6_twomassid_strip {isCSV : Bool} {lcflines : List String} {d : LCDict}
    {l0 : String} {p0 : String × String}
    (hr : read_textlines isCSV lcflines = .ok d)
    (h0 : getAt (prepMeta lcflines) 0 = .ok l0)
    (hu : unpack2 (pySplit " - " l0) = .ok p0) :
    d.twomassid = pyStrip ['2', 'M', 'A', 'S', ' ', 'J'] p0.2 := by
  obtain ⟨m, cd, hm, hb, rfl⟩ := read_textlines_ok hr
  obtain ⟨⟨l0b, p0b, h0b, hub, -, ht⟩, -⟩ := parse_metadata_ok hm
  have hl : l0b = l0 := by injection h0b.symm.trans h0
  subst hl
  have hp : p0b = p0 := by injection hub.symm.trans hu
  subst hp
  show pyStrip _ m.twomassid = _
  rw [ht]

/-- C6, witness: the strip theorem applied to the concrete scenario's
metadata line 0. -/
theorem c6_twomassid_strip_witness :
    c1dict.twomassid =
      pyStrip ['2', 'M', 'A', 'S', ' ', 'J'] "2MASS J01020304+0506070" :=
  @c6_twomassid_strip false c1lines c1dict
    "HAT-123-4567 - 2MASS J01020304+0506070"
    ("HAT-123-4567", "2MASS J01020304+0506070")
    (by decide) (by decide) (by decide)

/-- C7: a path whose basename contains none of `.fits`, `.csv`, `.hatlc`
falls off the end of the reader's branch chain and yields the silent
implicit `None` — no exception, no message, no record — with or without
the FITS library; the claim's `UnsupportedFormat` failure does not occur
in the code. -/
theorem c7_unrecognized_format_silent :
    read_hatlc true "lightcurve.txt" c1content = .noneSilent ∧
    read_hatlc false "lightcurve.txt" c1content = .noneSilent := by decide

/-- C8: without a FITS-capable library, reading any path whose basename
contains `.fits` prints the message of source line 234 — which names the
missing `pyfits` dependency — and returns no record. -/
theorem c8_missing_pyfits (hatlc content : String)
    (h : pyIn ".fits" (basename hatlc) = true) :
    read_hatlc false hatlc content = .printedNone (cantReadMsg (basename hatlc)) ∧
    pyIn "pyfits" (cantReadMsg (basename hatlc)) = true := by
  constructor
  · unfold read_hatlc
    simp [h]
  · unfold pyIn cantReadMsg
    rw [decide_eq_true_iff]
    have hsub : "pyfits".toList <:+: " since we don't have the pyfits module".toList := by
      decide
    have happ : ("can't read " ++ basename hatlc ++
          " since we don't have the pyfits module").toList =
        ("can't read " ++ basename hatlc).toList ++
          " since we don't have the pyfits module".toList := by
      simp [String.toList, String.data_append]
    rw [happ]
    exact infix_append_left _ hsub

/-- C8, witness: the missing-library theorem at the concrete path
`a.fits`. -/
theorem c8_missing_pyfits_witness :
    read_hatlc false "a.fits" "" = .printedNone (cantReadMsg (basename "a.fits")) ∧
    pyIn "pyfits" (cantReadMsg (basename "a.fits")) = true :=
  c8_missing_pyfits "a.fits" "" (by decide)

/-- C9: compression and payload-format sniffing are independent substring
tests on the basename: `.gz` (tested before `.bz2`) selects gzip
regardless of anything else; `.fits` (tested before the text formats)
selects the binary branch; otherwise `.csv` selects comma-delimited text
parsing; in particular a basename containing both `.csv` and `.gz` (and,
per the stated precedence, not `.fits`) is gzip-decompressed and parsed
as comma-delimited text. -/
theorem c9_sniffing_independent (hp : Bool) (hatlc content : String) :
    (pyIn ".gz" (basename hatlc) = true → inferCompression (basename hatlc) = .gz) ∧
    (pyIn ".gz" (basename hatlc) = false → pyIn ".bz2" (basename hatlc) = true →
       inferCompression (basename hatlc) = .bz2) ∧
    (pyIn ".fits" (basename hatlc) = true →
       read_hatlc hp hatlc content = .fitsBranch ∨
       read_hatlc hp hatlc content = .printedNone (cantReadMsg (basename hatlc))) ∧
    (pyIn ".fits" (basename hatlc) = false → pyIn ".csv" (basename hatlc) = true →
       read_hatlc hp hatlc content = exceptToOutcome (read_text true content)) ∧
    (pyIn ".csv" (basename hatlc) = true → pyIn ".gz" (basename hatlc) = true →
       pyIn ".fits" (basename hatlc) = false →
       inferCompression (basename hatlc) = .gz ∧
       read_hatlc hp hatlc content = exceptToOutcome (read_text true content)) := by
  refine ⟨?_, ?_, ?_, ?_, ?_⟩
  · intro h
    unfold inferCompression
    simp [h]
  · intro h1 h2
    unfold inferCompression
    simp [h1, h2]
  · intro h
    unfold read_hatlc
    cases hp <;> simp [h]
  · intro h1 h2
    unfold read_hatlc
    simp [h1, h2]
  · intro h1 h2 h3
    exact ⟨by unfold inferCompression; simp [h2],
           by unfold read_hatlc; simp [h3, h1]⟩

/-- C9, witness: the sniffing theorem at the concrete basename
`data.csv.gz`. -/
theorem c9_sniffing_independent_witness :
    inferCompression (basename "data.csv.gz") = .gz ∧
    read_hatlc true "data.csv.gz" c1content = exceptToOutcome (read_text true c1content) :=
  (c9_sniffing_independent true "data.csv.gz" c1content).2.2.2.2
    (by decide) (by decide) (by decide)

/-- C10: a non-comment line of length at most one — a one-character line
exactly like an empty line — is silently discarded and contributes no
detection row: inserting such a line anywhere leaves the reader's result
unchanged; and only lines starting with `#` are kept as metadata lines. -/
theorem c10_short_lines_dropped (isCSV : Bool) (xs ys : List String) (l : String)
    (h1 : pyStartsWith l "#" = false) (h2 : l.length ≤ 1) :
    read_textlines isCSV (xs ++ l :: ys) = read_textlines isCSV (xs ++ ys) ∧
    ∀ x ∈ (xs ++ l :: ys).filter (fun s => pyStartsWith s "#"),
      pyStartsWith x "#" = true := by
  have hmeta : prepMeta (xs ++ l :: ys) = prepMeta (xs ++ ys) := by
    unfold prepMeta
    simp [List.filter_append, List.filter_cons, h1]
  have hlen : (decide (l.length > 1)) = false := decide_eq_false (by omega)
  have hdata : dataLines (xs ++ l :: ys) = dataLines (xs ++ ys) := by
    unfold dataLines
    simp [List.filter_append, List.filter_cons, h1, hlen]
  constructor
  · unfold read_textlines prepData
    rw [hmeta, hdata]
  · intro x hx
    exact (List.mem_filter.mp hx).2

/-- C10, witness: inserting the one-character line `5` between a comment
line and a data line changes nothing. -/
theorem c10_short_lines_dropped_witness :
    read_textlines false (["# hdr"] ++ "5" :: ["22 33"]) =
      read_textlines false (["# hdr"] ++ ["22 33"]) ∧
    ∀ x ∈ (["# hdr"] ++ "5" :: ["22 33"]).filter (fun s => pyStartsWith s "#"),
      pyStartsWith x "#" = true :=
  c10_short_lines_dropped false ["# hdr"] ["22 33"] "5" (by decide) (by decide)

end OldHatLC
